import Mathlib

/-
Verification of the tach CLI dispatcher (tach/cli.py) against its
specification.

The file shallow-embeds the dispatcher functions of tach/cli.py:
pure string formatting (build_error_message, create_clickable_link,
print_errors), the option plumbing of tach_check, the argument gate
parse_arguments / main, and the confirmation flow of tach_clean.

External collaborators that live outside the provided source slice
(tach.check.check, tach.sync.prune_dependency_constraints,
tach.parsing.parse_project_config, tach.filesystem, argparse, the
terminal) are passed in as explicit inputs: fallible calls enter as
Except values, environment lookups and filesystem results as plain
arguments.  Each dispatcher model returns a trace record holding the
arguments it forwarded to the collaborators, what it printed, and the
process exit code, so the temporal claims (what ran, in which case,
with which arguments) become statements about trace fields.
-/

/-- Python str.lower restricted to what Char.toLower covers (ASCII); this is
the fragment exercised by the spec claims, whose inputs are ASCII. -/
def pyLower (s : String) : String :=
  String.mk (s.data.map Char.toLower)

/-- Helper for pySplit: split a character list at every occurrence of the
separator, keeping empty chunks, exactly like Python str.split(sep) with a
one-character separator. -/
def pySplitChar (sep : Char) : List Char → List (List Char)
  | [] => [[]]
  | c :: cs =>
    match pySplitChar sep cs with
    | [] => [[]]
    | g :: gs => if c = sep then [] :: g :: gs else (c :: g) :: gs

/-- Python str.split(sep) for a one-character separator, as used by
cli.py for the comma-separated exclude and tag lists. -/
def pySplit (s : String) (sep : Char) : List String :=
  (pySplitChar sep s.data).map String.mk

/-- Python truthiness of an optional string attribute: None and the empty
string are falsy. -/
def pyTruthy : Option String → Bool
  | some m => m != ""
  | none => false

/-- Substring containment: t occurs contiguously inside s. -/
def strContains (s t : String) : Prop :=
  t.data <:+: s.data

instance (s t : String) : Decidable (strContains s t) :=
  inferInstanceAs (Decidable (t.data <:+: s.data))

/-- Python single quotes around a string, as produced by repr inside an
f-string. -/
def pyQuoted (s : String) : String :=
  String.mk (Char.ofNat 39 :: (s.data ++ [Char.ofNat 39]))

/-- Join a list of strings with a separator (Python str.join). -/
def joinSep (sep : String) : List String → String
  | [] => ""
  | [x] => x
  | x :: y :: xs => x ++ sep ++ joinSep sep (y :: xs)

/-- Python rendering of a list of strings inside an f-string:
str(["a", "b"]) prints the elements single-quoted, comma separated,
in square brackets. -/
def pyStrListRepr (ts : List String) : String :=
  "[" ++ joinSep ", " (ts.map pyQuoted) ++ "]"

/-- Lexicographic comparison of character lists by code point; this is the
string comparison Python's sorted uses for string keys. -/
def lexLe : List Char → List Char → Bool
  | [], _ => true
  | _ :: _, [] => false
  | a :: as, b :: bs =>
    if a < b then true
    else if b < a then false
    else lexLe as bs

/-- Modelled from the spec: the BCOLORS ANSI color escape constants live in
tach/colors.py, outside the provided source slice; the spec only records
that the CLI prints colorized output, so the codes are carried as an
explicit structure that the formatting functions take as input. -/
structure BColors where
  FAIL : String
  WARNING : String
  OKGREEN : String
  OKCYAN : String
  ENDC : String
deriving DecidableEq

/-- Modelled from the spec: the standard ANSI codes used for colorized
terminal printing (red fail, yellow warning, green ok, cyan prompt,
reset). -/
def BCOLORS : BColors :=
  { FAIL := "\x1b[91m"
    WARNING := "\x1b[93m"
    OKGREEN := "\x1b[92m"
    OKCYAN := "\x1b[96m"
    ENDC := "\x1b[0m" }

/-- Terminal environments distinguished by cli.py (class TerminalEnvironment). -/
inductive TerminalEnvironment where
  | UNKNOWN
  | JETBRAINS
  | VSCODE
deriving DecidableEq

/-- detect_environment from cli.py, with the two environment variables it
reads (TERMINAL_EMULATOR, TERM_PROGRAM, defaulting to "") passed
explicitly instead of looked up ambiently. -/
def detect_environment (terminal_emulator term_program : String) : TerminalEnvironment :=
  if "jetbrains".data <:+: (pyLower terminal_emulator).data then .JETBRAINS
  else if "vscode".data <:+: (pyLower term_program).data then .VSCODE
  else .UNKNOWN

/-- create_clickable_link from cli.py.  The terminal environment and the
result of os.path.abspath(file_path) are explicit inputs (they depend on
process state, not on the arguments).  line is Optional[int]; the display
suffix additionally requires truthiness (a nonzero line) and a recognized
terminal. -/
def create_clickable_link (terminal_env : TerminalEnvironment) (abs_path : String)
    (file_path : String) (line : Option Nat) : String :=
  let link :=
    match terminal_env, line with
    | .JETBRAINS, some n => "file://" ++ abs_path ++ ":" ++ toString n
    | .JETBRAINS, none => "file://" ++ abs_path
    | .VSCODE, some n => "vscode://file/" ++ abs_path ++ ":" ++ toString n
    | .VSCODE, none => "vscode://file/" ++ abs_path
    | .UNKNOWN, _ => "file://" ++ abs_path
  let display_file_path :=
    match line with
    | some n =>
      if n ≠ 0 ∧ terminal_env ≠ .UNKNOWN then
        file_path ++ "[L" ++ toString n ++ "]"
      else file_path
    | none => file_path
  "\x1b]8;;" ++ link ++ "\x1b\\" ++ display_file_path ++ "\x1b]8;;" ++ "\x1b\\"

/-- Modelled from the spec: ErrorInfo rides on BoundaryError, which is
defined in tach/check.py outside the source slice; the fields follow the
spec data model (BoundaryError, section 3) and the attribute reads in
cli.py: an optional raw exception message for structural failures, the
is_tag_error discriminator, and the two tag sets of a policy violation. -/
structure ErrorInfo where
  exception_message : Option String
  is_tag_error : Bool
  source_tags : List String
  invalid_tags : List String
deriving DecidableEq

/-- Modelled from the spec: BoundaryError (tach/check.py, outside the
slice); one reportable violating import site with its location, per the
spec data model and the attribute reads in cli.py. -/
structure BoundaryError where
  file_path : String
  line_number : Nat
  import_mod_path : String
  error_info : ErrorInfo
deriving DecidableEq

/-- The error template of build_error_message with the message hole filled:
f-string "cross location: message" wrapped in the color codes. -/
def error_template (colors : BColors) (error_location : String) (message : String) : String :=
  "❌ " ++ colors.FAIL ++ error_location ++ colors.ENDC ++ colors.WARNING ++ ": "
    ++ message ++ " " ++ colors.ENDC

/-- build_error_message from cli.py: a truthy exception message wins,
then a non-tag error renders as "Unexpected error", and a tag error
renders the import path and both tag lists. -/
def build_error_message (colors : BColors) (terminal_env : TerminalEnvironment)
    (abs_path : String) (error : BoundaryError) : String :=
  let error_location :=
    create_clickable_link terminal_env abs_path error.file_path (some error.line_number)
  if pyTruthy error.error_info.exception_message then
    error_template colors error_location (error.error_info.exception_message.getD "")
  else if !error.error_info.is_tag_error then
    error_template colors error_location "Unexpected error"
  else
    error_template colors error_location
      ("Cannot import " ++ pyQuoted error.import_mod_path ++ ". Tags "
        ++ pyStrListRepr error.error_info.source_tags ++ " cannot depend on "
        ++ pyStrListRepr error.error_info.invalid_tags ++ ".")

/-- The comparison key of print_errors: file_path, compared as Python
sorted compares string keys (lexicographically by code point). -/
def file_path_le (a b : BoundaryError) : Bool :=
  lexLe a.file_path.data b.file_path.data

/-- print_errors from cli.py prints the errors in the order
sorted(error_list, key=lambda e: e.file_path); Python sorted is a stable
merge sort, so the printed order is mergeSort by file_path. -/
def print_errors (error_list : List BoundaryError) : List BoundaryError :=
  error_list.mergeSort file_path_le

/-- TagDependencyRules from tach/core (outside the slice); the fields are
the ones print_extra_constraints reads, matching the spec persistence
format. -/
structure TagDependencyRules where
  tag : String
  depends_on : List String
deriving DecidableEq

/-- Modelled from the spec: the project config object returned by
parse_project_config (tach/parsing, outside the slice); fields follow the
attribute reads in tach_check and the spec (exclude list,
exclude_hidden_paths, and an exact boolean default). -/
structure ProjectConfig where
  exact : Bool
  exclude : Option (List String)
  exclude_hidden_paths : Bool
deriving DecidableEq

/-- The arguments tach_check forwards to check(".", project_config, ...). -/
structure CheckArgs where
  exclude_paths : Option (List String)
  exclude_hidden_paths : Bool
deriving DecidableEq

/-- Observable outcome of one tach_check run: which collaborator calls were
made and with which exclude lists, what was printed, and the exit code. -/
structure CheckTrace where
  checkCall : Option CheckArgs := none
  pruneCall : Option (Option (List String)) := none
  printedException : Option String := none
  printedExtra : Option (List TagDependencyRules) := none
  printedErrors : Option (List BoundaryError) := none
  printedSuccess : Bool := false
  exitCode : Nat
deriving DecidableEq

/-- Lines 234-235 of tach_check: the command line flag is promoted to the
config default ("if exact is False and project_config.exact is True:
exact = True"). -/
def effective_exact (exact : Bool) (project_config : ProjectConfig) : Bool :=
  if exact = false ∧ project_config.exact = true then true else exact

/-- Lines 236-239 of tach_check: when both the CLI exclude list and the
config exclude list are present the CLI list is extended with the config
list; otherwise exclude_paths is overwritten with the config value. -/
def merged_exclude_paths (exclude_paths : Option (List String))
    (config_exclude : Option (List String)) : Option (List String) :=
  match exclude_paths, config_exclude with
  | some cli, some cfg => some (cli ++ cfg)
  | _, _ => config_exclude

/-- The tail of tach_check after the exact-mode block falls through:
nonempty errors are printed (sorted) with exit 1, otherwise the success
message is printed with exit 0. -/
def check_tail (args : CheckArgs) (prune_call : Option (Option (List String)))
    (boundary_errors : List BoundaryError) : CheckTrace :=
  if !boundary_errors.isEmpty then
    { checkCall := some args
      pruneCall := prune_call
      printedErrors := some (print_errors boundary_errors)
      exitCode := 1 }
  else
    { checkCall := some args
      pruneCall := prune_call
      printedSuccess := true
      exitCode := 0 }

/-- tach_check from cli.py.  The three collaborator calls enter as Except
values: parse_result for parse_project_config(), check_result for
check(...), and extra_result for
prune_dependency_constraints(...).find_extra_constraints(project_config);
an .error value stands for a raised exception, which the surrounding
try/except turns into print(str(e)) and sys.exit(1).  The trace records
the exclude lists the collaborators were invoked with. -/
def tach_check (exact : Bool) (exclude_paths : Option (List String))
    (parse_result : Except String ProjectConfig)
    (check_result : Except String (List BoundaryError))
    (extra_result : Except String (List TagDependencyRules)) : CheckTrace :=
  match parse_result with
  | .error e => { printedException := some e, exitCode := 1 }
  | .ok project_config =>
    let exact := effective_exact exact project_config
    let exclude_paths := merged_exclude_paths exclude_paths project_config.exclude
    let args : CheckArgs := ⟨exclude_paths, project_config.exclude_hidden_paths⟩
    match check_result with
    | .error e => { checkCall := some args, printedException := some e, exitCode := 1 }
    | .ok boundary_errors =>
      if boundary_errors.isEmpty && exact then
        match extra_result with
        | .error e =>
          { checkCall := some args
            pruneCall := some exclude_paths
            printedException := some e
            exitCode := 1 }
        | .ok extra_constraints =>
          if !extra_constraints.isEmpty then
            { checkCall := some args
              pruneCall := some exclude_paths
              printedExtra := some extra_constraints
              exitCode := 1 }
          else
            check_tail args (some exclude_paths) boundary_errors
      else
        check_tail args none boundary_errors

/-- Modelled from the spec: the argparse Namespace produced by
build_parser, restricted to the attributes cli.py reads after parsing;
argparse itself is an excluded collaborator. -/
structure ArgsNamespace where
  command : Option String
  exact : Bool
  exclude : Option String
  prune : Bool
  force : Bool
deriving DecidableEq

/-- Exceptions escaping the argument gate: an IndexError from indexing the
raw argument list, a SystemExit raised by argparse, or an exception from
project-config-path validation. -/
inductive CliException where
  | indexError
  | argparseExit (code : Nat)
  | exceptionMsg (msg : String)
deriving DecidableEq

/-- The commands whose first token skips config-path validation in
parse_arguments. -/
def setup_commands : List String := ["init", "add", "clean", "sync"]

/-- parse_arguments from cli.py.  parse_args_result stands for
argparse parse_args (an .error is a SystemExit with its code), and
validate_result for fs.validate_project_config_path().  After parsing,
args[0] is read from the raw list (IndexError when it is empty), and
validation runs only when that first token is not a setup command.  The
returned Bool records whether validation ran. -/
def parse_arguments (parse_args_result : List String → Except Nat ArgsNamespace)
    (validate_result : Except String Unit) (args : List String) :
    Except CliException (ArgsNamespace × Bool) :=
  match parse_args_result args with
  | .error code => .error (.argparseExit code)
  | .ok parsed_args =>
    match args with
    | [] => .error .indexError
    | first :: _ =>
      if first ∈ setup_commands then .ok (parsed_args, false)
      else
        match validate_result with
        | .error e => .error (.exceptionMsg e)
        | .ok _ => .ok (parsed_args, true)

/-- Line 373 of main: the comma separated exclude string is split into a
path list; a missing or empty string (falsy in Python) yields None. -/
def cli_exclude_paths (exclude : Option String) : Option (List String) :=
  match exclude with
  | some s => if s ≠ "" then some (pySplit s ',') else none
  | none => none

/-- Observable outcome of main on the check path: either an exception
escaped the argument gate before any engine work, or tach_check ran. -/
structure MainTrace where
  raised : Option CliException := none
  checkTrace : Option CheckTrace := none
deriving DecidableEq

/-- main from cli.py restricted to the check command path: parse_arguments
runs first (including config-path validation), and only if it returns does
the dispatch reach tach_check with the split exclude list; the other
command branches are not exercised by the claims under study. -/
def main_check (parse_args_result : List String → Except Nat ArgsNamespace)
    (validate_result : Except String Unit) (argv : List String)
    (parse_result : Except String ProjectConfig)
    (check_result : Except String (List BoundaryError))
    (extra_result : Except String (List TagDependencyRules)) : MainTrace :=
  match parse_arguments parse_args_result validate_result argv with
  | .error e => { raised := some e }
  | .ok (args, _) =>
    if args.command = some "check" then
      { checkTrace :=
          some (tach_check args.exact (cli_exclude_paths args.exclude)
            parse_result check_result extra_result) }
    else
      { }

/-- Observable outcome of tach_clean: whether the confirmation prompt was
shown and whether clean_project was invoked. -/
structure CleanTrace where
  prompted : Bool
  clean_called : Bool
deriving DecidableEq

/-- tach_clean from cli.py.  response stands for the input() answer read
when force is not set; deletion happens only when its lowercased form is
exactly "y" or "yes", and force skips the prompt entirely. -/
def tach_clean (force : Bool) (response : String) : CleanTrace :=
  if force then
    { prompted := false, clean_called := true }
  else
    { prompted := true
      clean_called := decide (pyLower response ∈ (["y", "yes"] : List String)) }

/-- Sample error for witnesses: a tag-error BoundaryError at the given
path and line. -/
def sampleError (p : String) (n : Nat) : BoundaryError :=
  { file_path := p
    line_number := n
    import_mod_path := "pkg.mod"
    error_info :=
      { exception_message := none
        is_tag_error := true
        source_tags := ["low"]
        invalid_tags := ["high"] } }

/-- Exception-carrying structural error used in the C4 witness. -/
def structuralError : BoundaryError :=
  { file_path := "b.py"
    line_number := 3
    import_mod_path := "x"
    error_info :=
      { exception_message := some "boom"
        is_tag_error := false
        source_tags := []
        invalid_tags := [] } }

/-- Non-tag error without exception message used in the C4 witness. -/
def oddError : BoundaryError :=
  { file_path := "c.py"
    line_number := 4
    import_mod_path := "x"
    error_info :=
      { exception_message := none
        is_tag_error := false
        source_tags := []
        invalid_tags := [] } }

/-- Constant argparse stub used in witnesses: parsing always succeeds with
an empty namespace. -/
def constArgparse : List String → Except Nat ArgsNamespace :=
  fun _ => .ok ⟨none, false, none, false, false⟩

/-- Sample dependency rule used in witnesses for the extra-constraint
report. -/
def sampleRule : TagDependencyRules :=
  { tag := "low", depends_on := ["high"] }

/-
Helper lemmas.
-/

theorem lexLe_total (xs : List Char) : ∀ ys : List Char, (lexLe xs ys || lexLe ys xs) = true := by
  induction xs with
  | nil => intro ys; cases ys <;> simp [lexLe]
  | cons a as ih =>
    intro ys
    cases ys with
    | nil => simp [lexLe]
    | cons b bs =>
      rcases lt_trichotomy a b with hab | hab | hab
      · simp [lexLe, hab]
      · subst hab
        simpa [lexLe, lt_irrefl] using ih bs
      · simp [lexLe, hab, asymm hab]

theorem lexLe_trans (xs : List Char) : ∀ ys zs : List Char,
    lexLe xs ys = true → lexLe ys zs = true → lexLe xs zs = true := by
  induction xs with
  | nil => intro ys zs _ _; simp [lexLe]
  | cons a as ih =>
    intro ys zs h1 h2
    cases ys with
    | nil => simp [lexLe] at h1
    | cons b bs =>
      cases zs with
      | nil => simp [lexLe] at h2
      | cons c cs =>
        rcases lt_trichotomy a b with hab | hab | hab
        · rcases lt_trichotomy b c with hbc | hbc | hbc
          · simp [lexLe, lt_trans hab hbc]
          · subst hbc; simp [lexLe, hab]
          · simp [lexLe, asymm hbc, hbc] at h2
        · subst hab
          simp [lexLe, lt_irrefl] at h1
          rcases lt_trichotomy a c with hac | hac | hac
          · simp [lexLe, hac]
          · subst hac
            simp [lexLe, lt_irrefl] at h2 ⊢
            exact ih bs cs h1 h2
          · simp [lexLe, hac, asymm hac] at h2
        · simp [lexLe, asymm hab, hab] at h1

theorem strContains_refl (s : String) : strContains s s :=
  ⟨[], [], by simp⟩

theorem strContains_append_left (a : String) {s t : String} (h : strContains s t) :
    strContains (a ++ s) t := by
  obtain ⟨u, v, huv⟩ := h
  exact ⟨a.data ++ u, v, by simp [String.data_append, huv]⟩

theorem strContains_append_right (b : String) {s t : String} (h : strContains s t) :
    strContains (s ++ b) t := by
  obtain ⟨u, v, huv⟩ := h
  exact ⟨u, v ++ b.data, by simp [String.data_append, ← huv]⟩

theorem strContains_trans {s t u : String} (h1 : strContains s t) (h2 : strContains t u) :
    strContains s u :=
  List.IsInfix.trans h2 h1

theorem error_template_contains_location (colors : BColors) (loc message : String) :
    strContains (error_template colors loc message) loc := by
  unfold error_template
  exact strContains_append_right _ (strContains_append_right _ (strContains_append_right _
    (strContains_append_right _ (strContains_append_right _ (strContains_append_right _
      (strContains_append_left _ (strContains_refl loc)))))))

theorem error_template_contains_message (colors : BColors) (loc message : String) :
    strContains (error_template colors loc message) message := by
  unfold error_template
  exact strContains_append_right _ (strContains_append_right _
    (strContains_append_left _ (strContains_refl message)))

theorem create_clickable_link_contains_path (terminal_env : TerminalEnvironment)
    (abs_path file_path : String) (line : Option Nat) :
    strContains (create_clickable_link terminal_env abs_path file_path line) file_path := by
  cases line with
  | none =>
    simp only [create_clickable_link]
    exact strContains_append_right _ (strContains_append_right _
      (strContains_append_left _ (strContains_refl file_path)))
  | some n =>
    simp only [create_clickable_link]
    by_cases h : n ≠ 0 ∧ terminal_env ≠ .UNKNOWN
    · rw [if_pos h]
      exact strContains_append_right _ (strContains_append_right _ (strContains_append_left _
        (strContains_append_right _ (strContains_append_right _
          (strContains_append_right _ (strContains_refl file_path))))))
    · rw [if_neg h]
      exact strContains_append_right _ (strContains_append_right _
        (strContains_append_left _ (strContains_refl file_path)))

theorem create_clickable_link_contains_line (terminal_env : TerminalEnvironment)
    (abs_path file_path : String) (n : Nat) (hn : n ≠ 0)
    (henv : terminal_env ≠ .UNKNOWN) :
    strContains (create_clickable_link terminal_env abs_path file_path (some n))
      (toString n) := by
  simp only [create_clickable_link]
  rw [if_pos (And.intro hn henv)]
  exact strContains_append_right _ (strContains_append_right _ (strContains_append_left _
    (strContains_append_right _ (strContains_append_left _ (strContains_refl (toString n))))))

theorem file_path_le_trans (a b c : BoundaryError)
    (h1 : file_path_le a b = true) (h2 : file_path_le b c = true) : file_path_le a c = true :=
  lexLe_trans _ _ _ h1 h2

theorem file_path_le_total (a b : BoundaryError) :
    (file_path_le a b || file_path_le b a) = true :=
  lexLe_total _ _

/-- C2: the printed error report is the input error list sorted stably by
file path: the output is ordered by file path, is a permutation of the
accumulated list (so insertion order does not decide membership), and any
subsequence already ordered by file path keeps its relative order
(stability). -/
theorem print_errors_sorted_stable (error_list c : List BoundaryError)
    (hc : c.Pairwise (fun a b => file_path_le a b = true))
    (hsub : c.Sublist error_list) :
    (print_errors error_list).Pairwise (fun a b => file_path_le a b = true) ∧
    (print_errors error_list).Perm error_list ∧
    c.Sublist (print_errors error_list) := by
  refine ⟨?_, ?_, ?_⟩
  · exact List.sorted_mergeSort (fun a b c => file_path_le_trans a b c)
      (fun a b => file_path_le_total a b) error_list
  · exact List.mergeSort_perm error_list _
  · exact List.sublist_mergeSort (fun a b c => file_path_le_trans a b c)
      (fun a b => file_path_le_total a b) hc hsub

/-- Witness for C2 at a concrete list: two same-path errors keep their
order and the third sorts in front. -/
theorem print_errors_sorted_stable_witness :
    (print_errors [sampleError "b.py" 1, sampleError "a.py" 3, sampleError "b.py" 2]).Pairwise
      (fun a b => file_path_le a b = true) ∧
    (print_errors [sampleError "b.py" 1, sampleError "a.py" 3, sampleError "b.py" 2]).Perm
      [sampleError "b.py" 1, sampleError "a.py" 3, sampleError "b.py" 2] ∧
    ([sampleError "b.py" 1, sampleError "b.py" 2].Sublist
      (print_errors [sampleError "b.py" 1, sampleError "a.py" 3, sampleError "b.py" 2])) :=
  print_errors_sorted_stable _ _ (by decide) (by decide)

/-- C6: exact mode is in effect iff the command line flag was passed or the
config default is true; the flag can enable but never disable the
default. -/
theorem effective_exact_iff (exact : Bool) (project_config : ProjectConfig) :
    effective_exact exact project_config = (exact || project_config.exact) ∧
    (effective_exact exact project_config = true ↔
      exact = true ∨ project_config.exact = true) := by
  cases exact <;> cases h : project_config.exact <;>
    simp [effective_exact, h]

/-- C10: without force, deletion happens exactly when the lowercased
response is "y" or "yes" (in particular never on empty input), after
prompting; with force, deletion proceeds without a prompt. -/
theorem tach_clean_confirmation (response : String) :
    ((tach_clean false response).clean_called = true ↔
      pyLower response = "y" ∨ pyLower response = "yes") ∧
    (tach_clean false "").clean_called = false ∧
    (tach_clean false response).prompted = true ∧
    tach_clean true response = { prompted := false, clean_called := true } := by
  refine ⟨?_, by decide, rfl, rfl⟩
  simp [tach_clean]

theorem pyQuoted_contains (s : String) : strContains (pyQuoted s) s :=
  ⟨[Char.ofNat 39], [Char.ofNat 39], by simp [pyQuoted]⟩

/-- C4 (amended): for a tag error without exception message the formatted
message contains the file path, the imported module path, and the
renderings of the source and disallowed target tags, and it additionally
contains the line number when the terminal environment is recognized and
the line is nonzero; a truthy raw exception message is rendered instead of
the tag information; a non-tag error without exception message renders as
"Unexpected error". -/
theorem build_error_message_contents (colors : BColors) (terminal_env : TerminalEnvironment)
    (abs_path : String) (error : BoundaryError) :
    (pyTruthy error.error_info.exception_message = false →
     error.error_info.is_tag_error = true →
      strContains (build_error_message colors terminal_env abs_path error) error.file_path ∧
      strContains (build_error_message colors terminal_env abs_path error)
        error.import_mod_path ∧
      strContains (build_error_message colors terminal_env abs_path error)
        (pyStrListRepr error.error_info.source_tags) ∧
      strContains (build_error_message colors terminal_env abs_path error)
        (pyStrListRepr error.error_info.invalid_tags) ∧
      (terminal_env ≠ .UNKNOWN → error.line_number ≠ 0 →
        strContains (build_error_message colors terminal_env abs_path error)
          (toString error.line_number))) ∧
    (∀ m, error.error_info.exception_message = some m → m ≠ "" →
      build_error_message colors terminal_env abs_path error =
        error_template colors
          (create_clickable_link terminal_env abs_path error.file_path
            (some error.line_number)) m ∧
      strContains (build_error_message colors terminal_env abs_path error) m ∧
      strContains (build_error_message colors terminal_env abs_path error) error.file_path) ∧
    (pyTruthy error.error_info.exception_message = false →
     error.error_info.is_tag_error = false →
      build_error_message colors terminal_env abs_path error =
        error_template colors
          (create_clickable_link terminal_env abs_path error.file_path
            (some error.line_number)) "Unexpected error") := by
  refine ⟨?_, ?_, ?_⟩
  · intro hexc htag
    have heq : build_error_message colors terminal_env abs_path error =
        error_template colors
          (create_clickable_link terminal_env abs_path error.file_path
            (some error.line_number))
          ("Cannot import " ++ pyQuoted error.import_mod_path ++ ". Tags "
            ++ pyStrListRepr error.error_info.source_tags ++ " cannot depend on "
            ++ pyStrListRepr error.error_info.invalid_tags ++ ".") := by
      simp [build_error_message, hexc, htag]
    rw [heq]
    have hloc := error_template_contains_location colors
      (create_clickable_link terminal_env abs_path error.file_path (some error.line_number))
      ("Cannot import " ++ pyQuoted error.import_mod_path ++ ". Tags "
        ++ pyStrListRepr error.error_info.source_tags ++ " cannot depend on "
        ++ pyStrListRepr error.error_info.invalid_tags ++ ".")
    have hmsg := error_template_contains_message colors
      (create_clickable_link terminal_env abs_path error.file_path (some error.line_number))
      ("Cannot import " ++ pyQuoted error.import_mod_path ++ ". Tags "
        ++ pyStrListRepr error.error_info.source_tags ++ " cannot depend on "
        ++ pyStrListRepr error.error_info.invalid_tags ++ ".")
    refine ⟨?_, ?_, ?_, ?_, ?_⟩
    · exact strContains_trans hloc
        (create_clickable_link_contains_path terminal_env abs_path error.file_path _)
    · refine strContains_trans hmsg ?_
      exact strContains_trans
        (strContains_append_right _ (strContains_append_right _ (strContains_append_right _
          (strContains_append_right _ (strContains_append_right _ (strContains_append_left _
            (strContains_refl (pyQuoted error.import_mod_path))))))))
        (pyQuoted_contains error.import_mod_path)
    · exact strContains_trans hmsg
        (strContains_append_right _ (strContains_append_right _ (strContains_append_right _
          (strContains_append_left _
            (strContains_refl (pyStrListRepr error.error_info.source_tags))))))
    · exact strContains_trans hmsg
        (strContains_append_right _
          (strContains_append_left _
            (strContains_refl (pyStrListRepr error.error_info.invalid_tags))))
    · intro henv hn
      exact strContains_trans hloc
        (create_clickable_link_contains_line terminal_env abs_path error.file_path
          error.line_number hn henv)
  · intro m hm hm'
    have hexc : pyTruthy (some m) = true := by
      simp [pyTruthy, hm']
    have heq : build_error_message colors terminal_env abs_path error =
        error_template colors
          (create_clickable_link terminal_env abs_path error.file_path
            (some error.line_number)) m := by
      simp [build_error_message, hm, hexc]
    refine ⟨heq, ?_, ?_⟩
    · rw [heq]
      exact error_template_contains_message colors _ m
    · rw [heq]
      exact strContains_trans (error_template_contains_location colors _ m)
        (create_clickable_link_contains_path terminal_env abs_path error.file_path _)
  · intro hexc htag
    simp [build_error_message, hexc, htag]

/-- Witness for C4 at concrete inputs covering all three rendering cases. -/
theorem build_error_message_contents_witness :
    (strContains (build_error_message BCOLORS .JETBRAINS "/root/a.py" (sampleError "a.py" 12))
        "a.py" ∧
      strContains (build_error_message BCOLORS .JETBRAINS "/root/a.py" (sampleError "a.py" 12))
        "pkg.mod" ∧
      strContains (build_error_message BCOLORS .JETBRAINS "/root/a.py" (sampleError "a.py" 12))
        (pyStrListRepr ["low"]) ∧
      strContains (build_error_message BCOLORS .JETBRAINS "/root/a.py" (sampleError "a.py" 12))
        (pyStrListRepr ["high"]) ∧
      strContains (build_error_message BCOLORS .JETBRAINS "/root/a.py" (sampleError "a.py" 12))
        (toString (12 : Nat))) ∧
    build_error_message BCOLORS .UNKNOWN "/root/b.py" structuralError =
      error_template BCOLORS (create_clickable_link .UNKNOWN "/root/b.py" "b.py" (some 3))
        "boom" ∧
    build_error_message BCOLORS .UNKNOWN "/root/c.py" oddError =
      error_template BCOLORS (create_clickable_link .UNKNOWN "/root/c.py" "c.py" (some 4))
        "Unexpected error" := by
  refine ⟨?_, ?_, ?_⟩
  · have h := (build_error_message_contents BCOLORS .JETBRAINS "/root/a.py"
      (sampleError "a.py" 12)).1 rfl rfl
    exact ⟨h.1, h.2.1, h.2.2.1, h.2.2.2.1, h.2.2.2.2 (by decide) (by decide)⟩
  · exact ((build_error_message_contents BCOLORS .UNKNOWN "/root/b.py"
      structuralError).2.1 "boom" rfl (by decide)).1
  · exact (build_error_message_contents BCOLORS .UNKNOWN "/root/c.py"
      oddError).2.2 rfl rfl

set_option maxRecDepth 8192 in
/-- C4 counterexample: in the UNKNOWN terminal environment (a generic
terminal) the formatted message of a tag error does not contain its line
number, although the claim asserts it always does. -/
theorem build_error_message_missing_line_number :
    (sampleError "a.py" 7).line_number = 7 ∧
    (sampleError "a.py" 7).error_info.is_tag_error = true ∧
    ¬ strContains
      (build_error_message BCOLORS .UNKNOWN "/root/a.py" (sampleError "a.py" 7))
      (toString (sampleError "a.py" 7).line_number) :=
  ⟨rfl, rfl, by decide⟩

theorem check_tail_checkCall (args : CheckArgs) (pc : Option (Option (List String)))
    (errs : List BoundaryError) : (check_tail args pc errs).checkCall = some args := by
  unfold check_tail
  split <;> rfl

theorem check_tail_pruneCall (args : CheckArgs) (pc : Option (Option (List String)))
    (errs : List BoundaryError) : (check_tail args pc errs).pruneCall = pc := by
  unfold check_tail
  split <;> rfl

theorem check_tail_of_nonempty (args : CheckArgs) (pc : Option (Option (List String)))
    (errs : List BoundaryError) (h : errs ≠ []) :
    check_tail args pc errs =
      { checkCall := some args
        pruneCall := pc
        printedErrors := some (print_errors errs)
        exitCode := 1 } := by
  unfold check_tail
  rcases errs with _ | ⟨a, as⟩
  · exact absurd rfl h
  · rfl

theorem check_tail_of_empty (args : CheckArgs) (pc : Option (Option (List String))) :
    check_tail args pc [] =
      { checkCall := some args
        pruneCall := pc
        printedSuccess := true
        exitCode := 0 } := rfl

theorem tach_check_checkCall (exact : Bool) (x : Option (List String)) (cfg : ProjectConfig)
    (c : Except String (List BoundaryError)) (e : Except String (List TagDependencyRules)) :
    (tach_check exact x (.ok cfg) c e).checkCall =
      some ⟨merged_exclude_paths x cfg.exclude, cfg.exclude_hidden_paths⟩ := by
  cases c with
  | error msg => rfl
  | ok errs =>
    by_cases hcond : (errs.isEmpty && effective_exact exact cfg) = true
    · cases e with
      | error msg => simp [tach_check, hcond]
      | ok extra =>
        by_cases hni : extra.isEmpty
        · simp [tach_check, hcond, hni, check_tail_checkCall]
        · simp [tach_check, hcond, hni]
    · simp [tach_check, hcond, check_tail_checkCall]

theorem tach_check_pruneCall_cases (exact : Bool) (x : Option (List String))
    (cfg : ProjectConfig) (c : Except String (List BoundaryError))
    (e : Except String (List TagDependencyRules)) :
    (tach_check exact x (.ok cfg) c e).pruneCall = none ∨
    (tach_check exact x (.ok cfg) c e).pruneCall =
      some (merged_exclude_paths x cfg.exclude) := by
  cases c with
  | error msg => exact Or.inl rfl
  | ok errs =>
    by_cases hcond : (errs.isEmpty && effective_exact exact cfg) = true
    · cases e with
      | error msg => right; simp [tach_check, hcond]
      | ok extra =>
        by_cases hni : extra.isEmpty
        · right; simp [tach_check, hcond, hni, check_tail_pruneCall]
        · right; simp [tach_check, hcond, hni]
    · left; simp [tach_check, hcond, check_tail_pruneCall]

/-- C1: the prune step runs exactly when the validator returned zero
boundary errors and exact mode is in effect (so prune never runs while any
violation exists), and when it runs and finds at least one extra
constraint the check exits nonzero reporting the extra constraints
instead of boundary errors. -/
theorem tach_check_prune_sequencing (exact : Bool) (exclude_paths : Option (List String))
    (parse_result : Except String ProjectConfig)
    (check_result : Except String (List BoundaryError))
    (extra_result : Except String (List TagDependencyRules)) :
    ((tach_check exact exclude_paths parse_result check_result
        extra_result).pruneCall.isSome = true →
      check_result = .ok [] ∧
      ∃ project_config, parse_result = .ok project_config ∧
        effective_exact exact project_config = true) ∧
    (∀ project_config, parse_result = .ok project_config → check_result = .ok [] →
      effective_exact exact project_config = true →
      (tach_check exact exclude_paths parse_result check_result
        extra_result).pruneCall.isSome = true) ∧
    (∀ project_config extra, parse_result = .ok project_config → check_result = .ok [] →
      effective_exact exact project_config = true →
      extra_result = .ok extra → extra ≠ [] →
      (tach_check exact exclude_paths parse_result check_result extra_result).exitCode = 1 ∧
      (tach_check exact exclude_paths parse_result check_result
        extra_result).printedExtra = some extra ∧
      (tach_check exact exclude_paths parse_result check_result
        extra_result).printedErrors = none) := by
  refine ⟨?_, ?_, ?_⟩
  · intro hprune
    cases parse_result with
    | error msg => simp [tach_check] at hprune
    | ok project_config =>
      cases check_result with
      | error msg => simp [tach_check] at hprune
      | ok boundary_errors =>
        by_cases hcond : (boundary_errors.isEmpty && effective_exact exact project_config) = true
        · have hempty : boundary_errors = [] := by
            rcases boundary_errors with _ | ⟨a, as⟩
            · rfl
            · simp at hcond
          have hexact : effective_exact exact project_config = true := by
            rw [hempty] at hcond
            simpa using hcond
          subst hempty
          exact ⟨rfl, project_config, rfl, hexact⟩
        · exfalso
          have hnone : (tach_check exact exclude_paths (.ok project_config)
              (.ok boundary_errors) extra_result).pruneCall = none := by
            simp [tach_check, hcond, check_tail_pruneCall]
          rw [hnone] at hprune
          simp at hprune
  · intro project_config hparse hcheck hexact
    subst hparse
    subst hcheck
    rcases tach_check_pruneCall_cases exact exclude_paths project_config (.ok [])
      extra_result with hc | hc
    · exfalso
      have hsome : (tach_check exact exclude_paths (.ok project_config) (.ok [])
          extra_result).pruneCall ≠ none := by
        cases extra_result with
        | error msg => simp [tach_check, hexact]
        | ok extra =>
          by_cases hni : extra.isEmpty
          · simp [tach_check, hexact, hni, check_tail_pruneCall]
          · simp [tach_check, hexact, hni]
      exact hsome hc
    · rw [hc]
      rfl
  · intro project_config extra hparse hcheck hexact hextra hne
    subst hparse
    subst hcheck
    subst hextra
    have hni : extra.isEmpty = false := by
      rcases extra with _ | ⟨a, as⟩
      · exact absurd rfl hne
      · rfl
    simp [tach_check, hni, hexact]

/-- Witness for C1: exact mode, no violations, one unused constraint. -/
theorem tach_check_prune_sequencing_witness :
    (tach_check true none (.ok ⟨false, none, false⟩) (.ok [])
      (.ok [sampleRule])).pruneCall.isSome = true ∧
    (tach_check true none (.ok ⟨false, none, false⟩) (.ok [])
      (.ok [sampleRule])).exitCode = 1 ∧
    (tach_check true none (.ok ⟨false, none, false⟩) (.ok [])
      (.ok [sampleRule])).printedExtra = some [sampleRule] ∧
    (tach_check true none (.ok ⟨false, none, false⟩) (.ok [])
      (.ok [sampleRule])).printedErrors = none :=
  ⟨(tach_check_prune_sequencing true none (.ok ⟨false, none, false⟩) (.ok [])
      (.ok [sampleRule])).2.1 ⟨false, none, false⟩ rfl rfl rfl,
    (tach_check_prune_sequencing true none (.ok ⟨false, none, false⟩) (.ok [])
      (.ok [sampleRule])).2.2 ⟨false, none, false⟩ [sampleRule] rfl rfl rfl rfl (by decide)⟩

/-- C3: a non-empty boundary error list is turned into exit status 1 with
the errors printed (sorted) and no success message, while an empty error
list with no failing exact-mode step (exact off, or the prune step finding
nothing) exits 0 after printing the success message. -/
theorem tach_check_exit_semantics (exact : Bool) (exclude_paths : Option (List String))
    (project_config : ProjectConfig) (boundary_errors : List BoundaryError)
    (extra_result : Except String (List TagDependencyRules)) :
    (boundary_errors ≠ [] →
      (tach_check exact exclude_paths (.ok project_config) (.ok boundary_errors)
        extra_result).exitCode = 1 ∧
      (tach_check exact exclude_paths (.ok project_config) (.ok boundary_errors)
        extra_result).printedErrors = some (print_errors boundary_errors) ∧
      (tach_check exact exclude_paths (.ok project_config) (.ok boundary_errors)
        extra_result).printedSuccess = false) ∧
    (boundary_errors = [] → effective_exact exact project_config = false →
      (tach_check exact exclude_paths (.ok project_config) (.ok boundary_errors)
        extra_result).exitCode = 0 ∧
      (tach_check exact exclude_paths (.ok project_config) (.ok boundary_errors)
        extra_result).printedSuccess = true ∧
      (tach_check exact exclude_paths (.ok project_config) (.ok boundary_errors)
        extra_result).printedErrors = none) ∧
    (boundary_errors = [] → extra_result = .ok [] →
      (tach_check exact exclude_paths (.ok project_config) (.ok boundary_errors)
        extra_result).exitCode = 0 ∧
      (tach_check exact exclude_paths (.ok project_config) (.ok boundary_errors)
        extra_result).printedSuccess = true ∧
      (tach_check exact exclude_paths (.ok project_config) (.ok boundary_errors)
        extra_result).printedErrors = none) := by
  refine ⟨?_, ?_, ?_⟩
  · intro hne
    have hni : boundary_errors.isEmpty = false := by
      rcases boundary_errors with _ | ⟨a, as⟩
      · exact absurd rfl hne
      · rfl
    simp [tach_check, hni, check_tail_of_nonempty _ _ _ hne]
  · intro hempty hex
    subst hempty
    simp [tach_check, hex, check_tail_of_empty]
  · intro hempty hextra
    subst hempty
    subst hextra
    by_cases hex : effective_exact exact project_config = true
    · simp [tach_check, hex, check_tail_of_empty]
    · simp [tach_check, hex, check_tail_of_empty]

/-- Witness for C3: a run with two violations exits 1 printing them, and a
clean exact run with no unused constraints exits 0. -/
theorem tach_check_exit_semantics_witness :
    ((tach_check false none (.ok ⟨false, none, false⟩)
        (.ok [sampleError "b.py" 1, sampleError "a.py" 2]) (.ok [])).exitCode = 1 ∧
      (tach_check false none (.ok ⟨false, none, false⟩)
        (.ok [sampleError "b.py" 1, sampleError "a.py" 2]) (.ok [])).printedErrors =
        some (print_errors [sampleError "b.py" 1, sampleError "a.py" 2]) ∧
      (tach_check false none (.ok ⟨false, none, false⟩)
        (.ok [sampleError "b.py" 1, sampleError "a.py" 2]) (.ok [])).printedSuccess = false) ∧
    ((tach_check true none (.ok ⟨false, none, false⟩) (.ok []) (.ok [])).exitCode = 0 ∧
      (tach_check true none (.ok ⟨false, none, false⟩) (.ok []) (.ok [])).printedSuccess = true ∧
      (tach_check true none (.ok ⟨false, none, false⟩) (.ok []) (.ok [])).printedErrors = none) :=
  ⟨(tach_check_exit_semantics false none ⟨false, none, false⟩
      [sampleError "b.py" 1, sampleError "a.py" 2] (.ok [])).1 (by decide),
    (tach_check_exit_semantics true none ⟨false, none, false⟩ [] (.ok [])).2.2 rfl rfl⟩

/-- C5: whenever the prune step is called, it receives exactly the
exclude_paths value that was passed to the preceding check call, namely
the CLI exclude list merged with the declared config exclude list. -/
theorem tach_check_prune_same_excludes (exact : Bool) (exclude_paths : Option (List String))
    (project_config : ProjectConfig)
    (check_result : Except String (List BoundaryError))
    (extra_result : Except String (List TagDependencyRules))
    (ep : Option (List String))
    (hp : (tach_check exact exclude_paths (.ok project_config) check_result
      extra_result).pruneCall = some ep) :
    ep = merged_exclude_paths exclude_paths project_config.exclude ∧
    (tach_check exact exclude_paths (.ok project_config) check_result
      extra_result).checkCall = some ⟨ep, project_config.exclude_hidden_paths⟩ := by
  have hep : ep = merged_exclude_paths exclude_paths project_config.exclude := by
    rcases tach_check_pruneCall_cases exact exclude_paths project_config check_result
      extra_result with hc | hc
    · rw [hc] at hp
      exact absurd hp (by simp)
    · rw [hc] at hp
      exact (Option.some.injEq _ _ ▸ hp).symm
  refine ⟨hep, ?_⟩
  rw [tach_check_checkCall, hep]

/-- Witness for C5: with a CLI exclude list and a config exclude list, the
prune call receives their concatenation, as the check call did. -/
theorem tach_check_prune_same_excludes_witness :
    (some ["cli/"] : Option (List String)) =
      merged_exclude_paths (some ["cli/"]) (ProjectConfig.mk false (some []) false).exclude ∧
    (tach_check true (some ["cli/"]) (.ok (ProjectConfig.mk false (some []) false)) (.ok [])
      (.ok [sampleRule])).checkCall = some ⟨some ["cli/"], false⟩ :=
  tach_check_prune_same_excludes true (some ["cli/"]) (ProjectConfig.mk false (some []) false)
    (.ok []) (.ok [sampleRule]) (some ["cli/"]) (by decide)

/-- C7: the external exclude list is a comma separated string split on
commas into individual paths; when both the CLI and the config exclude
lists are present, check receives their concatenation with the CLI
entries first; when the CLI list is absent the config list alone is
used. -/
theorem exclude_list_plumbing (s : String) (hs : s ≠ "")
    (cli policy : List String) (x : Option (List String))
    (exact : Bool) (project_config : ProjectConfig)
    (hpc : project_config.exclude = some policy)
    (check_result : Except String (List BoundaryError))
    (extra_result : Except String (List TagDependencyRules)) :
    cli_exclude_paths (some s) = some (pySplit s ',') ∧
    pySplit "tests/,ci/" ',' = ["tests/", "ci/"] ∧
    merged_exclude_paths (some cli) (some policy) = some (cli ++ policy) ∧
    merged_exclude_paths none x = x ∧
    (tach_check exact (some cli) (.ok project_config) check_result
      extra_result).checkCall =
      some ⟨some (cli ++ policy), project_config.exclude_hidden_paths⟩ := by
  refine ⟨?_, by decide, rfl, ?_, ?_⟩
  · simp [cli_exclude_paths, hs]
  · cases x <;> rfl
  · rw [tach_check_checkCall, hpc]
    rfl

/-- Witness for C7 at a concrete exclude string and concrete lists. -/
theorem exclude_list_plumbing_witness :
    cli_exclude_paths (some "tests/,ci/") = some (pySplit "tests/,ci/" ',') ∧
    pySplit "tests/,ci/" ',' = ["tests/", "ci/"] ∧
    merged_exclude_paths (some ["tests/"]) (some ["docs/"]) = some (["tests/"] ++ ["docs/"]) ∧
    merged_exclude_paths none (some ["docs/"]) = some ["docs/"] ∧
    (tach_check false (some ["tests/"])
      (.ok (ProjectConfig.mk false (some ["docs/"]) true)) (.ok []) (.ok [])).checkCall =
      some ⟨some (["tests/"] ++ ["docs/"]), (ProjectConfig.mk false (some ["docs/"]) true).exclude_hidden_paths⟩ :=
  exclude_list_plumbing "tests/,ci/" (by decide) ["tests/"] ["docs/"] (some ["docs/"])
    false (ProjectConfig.mk false (some ["docs/"]) true) rfl (.ok []) (.ok [])

/-- C8: an exception while loading the project config is fatal: the run
prints that message once, exits 1, never calls check and prints no
boundary errors; and for the check command (a non-setup command) a failing
config-path validation in parse_arguments prevents tach_check from ever
running, so validation happens before any scanning. -/
theorem config_error_fatal (exact : Bool) (exclude_paths : Option (List String))
    (msg : String) (check_result : Except String (List BoundaryError))
    (extra_result : Except String (List TagDependencyRules)) :
    tach_check exact exclude_paths (.error msg) check_result extra_result =
      { printedException := some msg, exitCode := 1 } ∧
    (∀ (parse_args_result : List String → Except Nat ArgsNamespace)
        (rest : List String) (vmsg : String)
        (parse_result : Except String ProjectConfig),
      (main_check parse_args_result (.error vmsg) ("check" :: rest) parse_result
        check_result extra_result).checkTrace = none ∧
      (main_check parse_args_result (.error vmsg) ("check" :: rest) parse_result
        check_result extra_result).raised ≠ none) := by
  constructor
  · rfl
  · intro parse_args_result rest vmsg parse_result
    cases hpf : parse_args_result ("check" :: rest) with
    | error code =>
      simp [main_check, parse_arguments, hpf]
    | ok ns =>
      simp [main_check, parse_arguments, hpf, setup_commands]

/-- C9: parse_arguments applied to the empty argument list raises an
IndexError (args[0] is read unconditionally after argparse returns) rather
than exiting cleanly, and for a first token among init, add, clean, sync
the config-path validation is skipped: the result does not depend on the
validation outcome and never reports validation as having run. -/
theorem parse_arguments_first_token
    (parse_args_result : List String → Except Nat ArgsNamespace)
    (validate_result : Except String Unit) (ns : ArgsNamespace)
    (hok : parse_args_result [] = .ok ns) :
    parse_arguments parse_args_result validate_result [] = .error .indexError ∧
    (∀ first rest, first ∈ setup_commands →
      parse_arguments parse_args_result validate_result (first :: rest) =
        parse_arguments parse_args_result (.ok ()) (first :: rest) ∧
      ∀ ns2 ranValidation,
        parse_arguments parse_args_result validate_result (first :: rest) =
          .ok (ns2, ranValidation) → ranValidation = false) := by
  constructor
  · simp [parse_arguments, hok]
  · intro first rest hmem
    constructor
    · cases hpf : parse_args_result (first :: rest) with
      | error code => simp [parse_arguments, hpf]
      | ok ns2 => simp [parse_arguments, hpf, hmem]
    · intro ns2 ranValidation hres
      cases hpf : parse_args_result (first :: rest) with
      | error code => simp [parse_arguments, hpf] at hres
      | ok ns3 =>
        simp [parse_arguments, hpf, hmem] at hres
        exact hres.2

/-- Witness for C9: with a constant argparse stub and a failing validator,
the empty list raises IndexError and an init invocation ignores the
validator. -/
theorem parse_arguments_first_token_witness :
    parse_arguments constArgparse (.error "missing tach.yml") [] = .error .indexError ∧
    parse_arguments constArgparse (.error "missing tach.yml") ["init"] =
      parse_arguments constArgparse (.ok ()) ["init"] :=
  ⟨(parse_arguments_first_token constArgparse (.error "missing tach.yml")
      ⟨none, false, none, false, false⟩ rfl).1,
    ((parse_arguments_first_token constArgparse (.error "missing tach.yml")
      ⟨none, false, none, false, false⟩ rfl).2 "init" [] (by decide)).1⟩
